import Mathlib

/-!
Verification development for the minesweeper review-scoring pipeline.

The definitions below are a shallow embedding of the Python sources:
`app/services.py` (FeatureEngineer), `app/models.py` (LandmineScorer),
`app/sentiment.py` (get_sentiment_score) and the scoring part of
`app/main.py` (analyze_place).  Numeric review data is embedded in ℚ;
Python dictionaries with fixed keys become structures; functions that can
raise become `Except String`.
-/

/-- Python str.strip on a character list: drop whitespace from both ends. -/
def stripChars (l : List Char) : List Char :=
  ((l.dropWhile Char.isWhitespace).reverse.dropWhile Char.isWhitespace).reverse

/-- Python str.strip on a string (`sentence.strip()` in services.py). -/
def pyStrip (s : String) : String :=
  ⟨stripChars s.toList⟩

/-- Whether the first list is a prefix of the second, decided character by
character (helper for Python substring containment). -/
def startsWithChars : List Char → List Char → Bool
  | [], _ => true
  | _ :: _, [] => false
  | a :: as, b :: bs => a == b && startsWithChars as bs

/-- Whether `needle` occurs as a contiguous sublist of the given list. -/
def hasSubChars (needle : List Char) : List Char → Bool
  | [] => startsWithChars needle []
  | c :: cs => startsWithChars needle (c :: cs) || hasSubChars needle cs

/-- Python `kw in s` substring test used by `_extract_key_phrases`. -/
def containsSub (s kw : String) : Bool :=
  hasSubChars kw.toList s.toList

/-- Split a character list at every character satisfying `p`, keeping empty
segments, as Python `re.split` does. -/
def splitChars (p : Char → Bool) : List Char → List (List Char)
  | [] => [[]]
  | c :: cs =>
    let r := splitChars p cs
    if p c then [] :: r
    else
      match r with
      | [] => [[c]]
      | g :: gs => (c :: g) :: gs

/-- The sentence separators of services.py line 79: full-width comma, period,
exclamation and question mark, their half-width forms, and newline. -/
def isSentenceSep (c : Char) : Bool :=
  c == '，' || c == '。' || c == '！' || c == '？' ||
  c == ',' || c == '!' || c == '?' || c == '\n'

/-- Sentence splitting of `_extract_key_phrases`:
`re.split(r'[，。！？,!?\n]', text)`. -/
def splitSentences (text : String) : List String :=
  (splitChars isSentenceSep text.toList).map (fun l => ⟨l⟩)

/-- First-occurrence deduplication, the semantics of Python
`list(dict.fromkeys(xs))`, written with an accumulator of seen elements. -/
def dedupFirstAux (seen : List String) : List String → List String
  | [] => []
  | x :: xs =>
    if x ∈ seen then dedupFirstAux seen xs
    else x :: dedupFirstAux (x :: seen) xs

/-- Python `list(dict.fromkeys(xs))`: unique elements in first-seen order. -/
def dedupKeepFirst (l : List String) : List String :=
  dedupFirstAux [] l

/-- Size of the intersection of two Python sets built from string lists:
`len(set(a).intersection(set(b)))`. -/
def interCount (a b : List String) : ℕ :=
  ((dedupKeepFirst a).filter (fun x => decide (x ∈ b))).length

/-- The four keyword lists of data/keywords.json as parsed by
FeatureEngineer.__init__. -/
structure KeywordData where
  high_risk : List String
  medium_risk : List String
  low_risk : List String
  positive_points : List String

/-- The keyword sets held by a FeatureEngineer instance after __init__:
the three negative tiers, the positive set, and their union. -/
structure Lexicon where
  high_risk_set : List String
  medium_risk_set : List String
  low_risk_set : List String
  positive_set : List String
  all_negative_set : List String

/-- Lexicon with all five sets empty, the fallback of __init__ on
FileNotFoundError. -/
def emptyLexicon : Lexicon :=
  ⟨[], [], [], [], []⟩

/-- Lexicon built from successfully parsed keyword data; all_negative_set is
the union of the three negative tiers. -/
def mkLexicon (d : KeywordData) : Lexicon :=
  { high_risk_set := d.high_risk
    medium_risk_set := d.medium_risk
    low_risk_set := d.low_risk
    positive_set := d.positive_points
    all_negative_set := d.high_risk ++ d.medium_risk ++ d.low_risk }

/-- State of the keywords.json source as seen by FeatureEngineer.__init__:
the file may be absent (open raises FileNotFoundError), present but not
valid JSON (json.load raises JSONDecodeError), or valid. -/
inductive LexiconSource
  | missing
  | malformed
  | valid (d : KeywordData)

/-- FeatureEngineer.__init__ (services.py lines 28-43): only
FileNotFoundError is caught and replaced by five empty sets; a malformed
file makes json.load raise, which no handler catches. -/
def featureEngineerInit (src : LexiconSource) : Except String Lexicon :=
  match src with
  | .missing => .ok emptyLexicon
  | .malformed => .error "json.JSONDecodeError"
  | .valid d => .ok (mkLexicon d)

/-- Sentiment label returned by the Azure text-analytics response. -/
inductive AzureSentiment
  | positive
  | negative
  | neutral

/-- The fields of an Azure analyze_sentiment document result that
get_sentiment_score reads. -/
structure AzureResponse where
  is_error : Bool
  sentiment : AzureSentiment
  positiveConfidence : ℚ
  negativeConfidence : ℚ

/-- get_sentiment_score (sentiment.py lines 22-58).  The Azure client is
`none` when credentials are missing; a configured client is a function from
the text to either a raised exception (`Except.error`) or a response. -/
def get_sentiment_score (client : Option (String → Except String AzureResponse))
    (text : String) : ℚ :=
  match client with
  | none => 0
  | some call =>
    match call text with
    | .error _ => 0
    | .ok r =>
      if r.is_error then 0
      else
        match r.sentiment with
        | .positive => r.positiveConfidence
        | .negative => -r.negativeConfidence
        | .neutral => 0

/-- A raw review record as received from the scraper: each required field may
be absent (`none` models a dict without that key). -/
structure RawReview where
  stars : Option ℚ
  text : Option String
  publishedAtDate : Option String

/-- A review row after column selection, dropna and renaming in
FeatureEngineer.run: all three required fields are present. -/
structure CleanRow where
  rating : ℚ
  text : String
  datetime_str : String
deriving DecidableEq

/-- Whether the stars column exists in `pd.DataFrame(reviews_list)`: some
record carries the key. -/
def hasStarsCol (reviews : List RawReview) : Bool :=
  reviews.any (fun r => r.stars.isSome)

/-- Whether the text column exists in the raw DataFrame. -/
def hasTextCol (reviews : List RawReview) : Bool :=
  reviews.any (fun r => r.text.isSome)

/-- Whether the publishedAtDate column exists in the raw DataFrame. -/
def hasDateCol (reviews : List RawReview) : Bool :=
  reviews.any (fun r => r.publishedAtDate.isSome)

/-- pandas dropna over the three selected columns: a row survives exactly
when all three fields are present. -/
def toCleanRow (r : RawReview) : Option CleanRow :=
  match r.stars, r.text, r.publishedAtDate with
  | some s, some t, some d => some ⟨s, t, d⟩
  | _, _, _ => none

/-- The normalization prefix of FeatureEngineer.run (services.py lines
145-165): empty input short-circuits to an empty table; a required column
absent from every record yields `none` (the Python `return None, None,
None`); otherwise rows with any missing field are dropped (`dropna`) and
rows whose stripped text is empty are filtered out. -/
def runNormalize (reviews : List RawReview) : Option (List CleanRow) :=
  if reviews.isEmpty then some []
  else if hasStarsCol reviews && hasTextCol reviews && hasDateCol reviews then
    some ((reviews.filterMap toCleanRow).filter (fun r => pyStrip r.text ≠ ""))
  else none

/-- The caller-side handling in main.py lines 183-185: a `none` from the
feature engineer is surfaced as HTTPException(500, generic message) that
names no field. -/
def analyzeNormalize (reviews : List RawReview) : Except (ℕ × String) (List CleanRow) :=
  match runNormalize reviews with
  | none => .error (500, "特徵工程執行失敗。")
  | some rows => .ok rows

/-- Per-review tier keyword counts, `_calculate_f2_keywords_jieba`
(services.py lines 55-70): the text is segmented by the external jieba
tokenizer (here a parameter), the tokens are collapsed to a set, and each
count is the size of the intersection with the tier set. -/
structure KeywordCounts where
  high_risk_keyword_count : ℕ
  medium_risk_keyword_count : ℕ
  low_risk_keyword_count : ℕ
deriving DecidableEq

/-- Model of `_calculate_f2_keywords_jieba`, with `tokenize` standing for
`jieba.cut(text, cut_all=False)`. -/
def calculate_f2_keywords_jieba (lex : Lexicon) (tokenize : String → List String)
    (text : String) : KeywordCounts :=
  let word_set := dedupKeepFirst (tokenize text)
  { high_risk_keyword_count := interCount lex.high_risk_set word_set
    medium_risk_keyword_count := interCount lex.medium_risk_set word_set
    low_risk_keyword_count := interCount lex.low_risk_set word_set }

/-- One step of the sentence loop in `_extract_key_phrases` (services.py
lines 81-99), threading the (positive, negative) phrase lists: blank
sentences are skipped; a sentence is scanned for negative keywords only
while the review's negative list is shorter than 3, and scanned for
positive keywords only when it was not claimed negative and the positive
list is shorter than 2. -/
def extractStep (lex : Lexicon) (acc : List String × List String)
    (sentence : String) : List String × List String :=
  let s := pyStrip sentence
  if s = "" then acc
  else
    let foundNegative :=
      acc.2.length < 3 && lex.all_negative_set.any (fun kw => containsSub s kw)
    if foundNegative then (acc.1, acc.2 ++ [s])
    else if acc.1.length < 2 && lex.positive_set.any (fun kw => containsSub s kw) then
      (acc.1 ++ [s], acc.2)
    else acc

/-- `_extract_key_phrases` (services.py lines 72-101) for one review text:
split into sentences and fold the per-sentence step, starting from two
empty lists.  Returns (positive, negative). -/
def extract_key_phrases (lex : Lexicon) (text : String) : List String × List String :=
  (splitSentences text).foldl (extractStep lex) ([], [])

/-- The merged key-phrase record built in FeatureEngineer.run. -/
structure KeyPhrases where
  positive_points : List String
  key_negative_keywords : List String
deriving DecidableEq

/-- The merge in FeatureEngineer.run (services.py lines 189-198): flatten
the per-review lists in review order, deduplicate keeping first occurrence
(`dict.fromkeys`), and cap at 2 positive / 3 negative. -/
def mergeKeyPhrases (perReview : List (List String × List String)) : KeyPhrases :=
  let all_positive := (perReview.map Prod.fst).flatten
  let all_negative := (perReview.map Prod.snd).flatten
  { positive_points := (dedupKeepFirst all_positive).take 2
    key_negative_keywords := (dedupKeepFirst all_negative).take 3 }

/-- Phrase extraction for a whole batch of review texts as run performs it:
per-review extraction followed by the merge. -/
def runKeyPhrases (lex : Lexicon) (texts : List String) : KeyPhrases :=
  mergeKeyPhrases (texts.map (extract_key_phrases lex))

/-- One row of the processed DataFrame handed to LandmineScorer: the columns
calculate_score reads. -/
structure ProcessedRow where
  rating : ℚ
  text : String
  high_risk_keyword_count : ℕ
  medium_risk_keyword_count : ℕ
  low_risk_keyword_count : ℕ
  sentiment_score : ℚ
deriving DecidableEq

/-- The processed DataFrame: its rows, and whether the sentiment_score
column exists (run only adds it on the non-empty path, and calculate_score
checks for it explicitly). -/
structure ProcessedDF where
  rows : List ProcessedRow
  hasSentimentCol : Bool
deriving DecidableEq

/-- Star-distribution dictionary read by `_calculate_f1_score`; absent keys
read as 0 through dict.get. -/
structure ReviewsDistribution where
  oneStar : ℕ
  twoStar : ℕ
deriving DecidableEq

/-- The trend_info dictionary entries read by calculate_score; absent keys
read through dict.get with the defaults shown in models.py lines 97-102. -/
structure TrendInfo where
  trend_score : ℚ
  total_reviews : ℕ
  reviews_distribution : ReviewsDistribution
deriving DecidableEq

/-- The weights dictionary of a LandmineScorer, assumed to contain the four
keys calculate_score indexes. -/
structure Weights where
  f1_neg_reviews : ℚ
  f2_keywords : ℚ
  f3_trend : ℚ
  f5_sentiment : ℚ
deriving DecidableEq

/-- The default weights of LandmineScorer.__init__ (models.py lines 17-22). -/
def defaultWeights : Weights :=
  { f1_neg_reviews := 0.25
    f2_keywords := 0.45
    f3_trend := 0.15
    f5_sentiment := 0.15 }

/-- LandmineScorer._calculate_f1_score (models.py lines 27-39). -/
def calculate_f1_score (dist : ReviewsDistribution) (total_reviews : ℕ) : ℚ :=
  if total_reviews = 0 then 0
  else
    let weighted_negative_count : ℚ := dist.oneStar * 1.5 + dist.twoStar
    min (weighted_negative_count / total_reviews * 200) 100

/-- Sum of a tier's keyword counts over the DataFrame rows. -/
def sumHigh (df : ProcessedDF) : ℕ :=
  (df.rows.map ProcessedRow.high_risk_keyword_count).sum

/-- Sum of the medium-tier keyword counts over the DataFrame rows. -/
def sumMedium (df : ProcessedDF) : ℕ :=
  (df.rows.map ProcessedRow.medium_risk_keyword_count).sum

/-- Sum of the low-tier keyword counts over the DataFrame rows. -/
def sumLow (df : ProcessedDF) : ℕ :=
  (df.rows.map ProcessedRow.low_risk_keyword_count).sum

/-- The risk_sum of `_calculate_f2_score`: tier totals times penalties
15 / 5 / 1. -/
def riskSum (df : ProcessedDF) : ℚ :=
  (sumHigh df : ℚ) * 15 + (sumMedium df : ℚ) * 5 + (sumLow df : ℚ) * 1

/-- LandmineScorer._calculate_f2_score (models.py lines 41-67). -/
def calculate_f2_score (df : ProcessedDF) : ℚ :=
  if df.rows.isEmpty then 0
  else min (riskSum df / (df.rows.length : ℚ) * 100) 100

/-- LandmineScorer._calculate_f3_score (models.py lines 69-73). -/
def calculate_f3_score (trend_score : ℚ) : ℚ :=
  min (max 0 trend_score * 50) 100

/-- Mean of the sentiment_score column, `df['sentiment_score'].mean()`. -/
def avgSentiment (df : ProcessedDF) : ℚ :=
  (df.rows.map ProcessedRow.sentiment_score).sum / (df.rows.length : ℚ)

/-- LandmineScorer._calculate_f5_score (models.py lines 75-85). -/
def calculate_f5_score (df : ProcessedDF) : ℚ :=
  if df.rows.isEmpty || !df.hasSentimentCol then 0
  else max 0 (min ((1 - avgSentiment df) * 50) 100)

/-- The risk-reason label attached to F1 in the scores_map of
calculate_score. -/
def reasonF1 : String := "大量的低星負評"

/-- The risk-reason label attached to F2. -/
def reasonF2 : String := "評論中提及的負面關鍵字 (如食安、服務)"

/-- The risk-reason label attached to F3. -/
def reasonF3 : String := "近期的評價有下降趨勢"

/-- The risk-reason label attached to F5. -/
def reasonF5 : String := "評論內容的整體負面情緒"

/-- max over the scores_map values, `max(scores_map.values())`. -/
def maxSubScore (f1 f2 f3 f5 : ℚ) : ℚ :=
  max (max f1 f2) (max f3 f5)

/-- Python `max(scores_map, key=scores_map.get)` over the insertion-ordered
dict of models.py lines 108-113: the first key attaining the maximum. -/
def dominantRiskReason (f1 f2 f3 f5 : ℚ) : String :=
  let m := maxSubScore f1 f2 f3 f5
  if f1 = m then reasonF1
  else if f2 = m then reasonF2
  else if f3 = m then reasonF3
  else reasonF5

/-- LandmineScorer.calculate_score (models.py lines 87-135).  The local
variable dominant_risk_reason is bound only inside the `max > 20` branch
(modelled as an `Option String`); reading it in the `final_score > 70`
override when it was never bound is Python's NameError, modelled as
`Except.error`. -/
def calculate_score (w : Weights) (df : ProcessedDF) (trend_info : TrendInfo) :
    Except String (ℚ × String) :=
  let f1 := calculate_f1_score trend_info.reviews_distribution trend_info.total_reviews
  let f2 := calculate_f2_score df
  let f3 := calculate_f3_score trend_info.trend_score
  let f5 := calculate_f5_score df
  let dominant : Option String :=
    if maxSubScore f1 f2 f3 f5 > 20 then some (dominantRiskReason f1 f2 f3 f5)
    else none
  let summary :=
    match dominant with
    | some r => "注意，主要風險可能來自於「" ++ r ++ "」。"
    | none => "數據顯示此地點的負面指標較少，整體風險低。"
  let final_score :=
    max 0 (min (f1 * w.f1_neg_reviews + f2 * w.f2_keywords +
                f3 * w.f3_trend + f5 * w.f5_sentiment) 100)
  if final_score > 70 then
    match dominant with
    | some r =>
      .ok (final_score, "警告！綜合多項指標分析，此地點踩雷風險高。主要風險來源為「" ++ r ++ "」。")
    | none => .error "NameError: name dominant_risk_reason is not defined"
  else
    .ok (final_score, summary)

/-- The risk-level bucketing of main.py lines 191-193. -/
def riskLevel (score : ℚ) : String :=
  if score > 70 then "高度風險"
  else if score > 40 then "中度風險"
  else "低度風險"

/-- Decidable equality for Except values, used to state results of the
embedded fallible functions at concrete inputs. -/
def exceptDecEq {α β : Type} [DecidableEq α] [DecidableEq β] :
    DecidableEq (Except α β)
  | .error a, .error b =>
    if h : a = b then .isTrue (by rw [h])
    else .isFalse (fun he => by cases he; exact h rfl)
  | .error _, .ok _ => .isFalse (fun he => by cases he)
  | .ok _, .error _ => .isFalse (fun he => by cases he)
  | .ok a, .ok b =>
    if h : a = b then .isTrue (by rw [h])
    else .isFalse (fun he => by cases he; exact h rfl)

instance {α β : Type} [DecidableEq α] [DecidableEq β] : DecidableEq (Except α β) :=
  exceptDecEq

/-- A processed review row for the Scenario-A batch: rating 5, no keyword
hits in any tier, sentiment 0. -/
def scenarioARow : ProcessedRow := ⟨5, "很棒的店家", 0, 0, 0, 0⟩

/-- The Scenario-A processed DataFrame: 10 such reviews, sentiment column
present. -/
def scenarioADF : ProcessedDF := ⟨List.replicate 10 scenarioARow, true⟩

/-- The Scenario-A trend_info: neutral trend, 10 declared reviews, no
declared one- or two-star reviews. -/
def scenarioATrend : TrendInfo := ⟨0, 10, ⟨0, 0⟩⟩

/-- On the Scenario-A batch the F1 sub-score is 0. -/
theorem scenarioA_f1 :
    calculate_f1_score scenarioATrend.reviews_distribution scenarioATrend.total_reviews = 0 := by
  simp [calculate_f1_score, scenarioATrend]

/-- On the Scenario-A batch the F2 sub-score is 0. -/
theorem scenarioA_f2 : calculate_f2_score scenarioADF = 0 := by
  simp [calculate_f2_score, riskSum, sumHigh, sumMedium, sumLow, scenarioADF,
    scenarioARow, List.map_replicate, List.sum_replicate]

/-- On the Scenario-A batch the F3 sub-score is 0. -/
theorem scenarioA_f3 : calculate_f3_score scenarioATrend.trend_score = 0 := by
  simp [calculate_f3_score, scenarioATrend]

/-- On the Scenario-A batch the F5 sub-score is 50, not 0: the neutral
per-review sentiment 0 is averaged and mapped through (1 - 0) * 50. -/
theorem scenarioA_f5 : calculate_f5_score scenarioADF = 50 := by
  simp [calculate_f5_score, avgSentiment, scenarioADF, scenarioARow,
    List.map_replicate, List.sum_replicate]
  norm_num

/-- C3: the claim says Scenario A (10 reviews, all rating 5, no keyword
matches, all sentiment scores 0, no declared low-star reviews) yields
final_score = 0 and the low-risk summary.  It does not: the code returns
final_score 7.5 (= F5 50 times weight 0.15), so the score is not 0. -/
theorem claim_C3_counterexample :
    calculate_score defaultWeights scenarioADF scenarioATrend =
      .ok (7.5, "注意，主要風險可能來自於「評論內容的整體負面情緒」。")
    ∧ (7.5 : ℚ) ≠ 0 := by
  constructor
  · rw [calculate_score, scenarioA_f1, scenarioA_f2, scenarioA_f3, scenarioA_f5]
    norm_num [maxSubScore, dominantRiskReason, defaultWeights, reasonF1,
      reasonF2, reasonF3, reasonF5]
    rfl
  · norm_num

/-- C3 (amended): on the Scenario-A batch the code returns final_score 7.5,
risk level 低度風險 (low), and a summary naming overall negative sentiment
as the dominant risk (F5 = 50 exceeds the 20 threshold), not the low-risk
summary. -/
theorem claim_C3_amended :
    calculate_score defaultWeights scenarioADF scenarioATrend =
      .ok (7.5, "注意，主要風險可能來自於「評論內容的整體負面情緒」。")
    ∧ riskLevel 7.5 = "低度風險" := by
  constructor
  · rw [calculate_score, scenarioA_f1, scenarioA_f2, scenarioA_f3, scenarioA_f5]
    norm_num [maxSubScore, dominantRiskReason, defaultWeights, reasonF1,
      reasonF2, reasonF3, reasonF5]
    rfl
  · rw [riskLevel]
    norm_num

/-- Custom weights that make final_score exceed 70 while every sub-score
stays at or below 20. -/
def crashWeights : Weights := ⟨0, 0, 5, 0⟩

/-- An empty processed DataFrame (no reviews at all). -/
def emptyDF : ProcessedDF := ⟨[], false⟩

/-- trend_info whose trend_score 0.4 puts F3 at exactly 20. -/
def crashTrend : TrendInfo := ⟨0.4, 0, ⟨0, 0⟩⟩

/-- C1: with weights containing the four keys and an input where every
sub-score is at most 20 (here F1 = F2 = F5 = 0, F3 = 20) but the weighted
final score is 100 > 70, calculate_score reads the local variable
dominant_risk_reason that was never bound (the max > 20 branch was not
taken) and raises NameError instead of producing the override summary. -/
theorem claim_C1_override_crashes :
    calculate_score crashWeights emptyDF crashTrend =
      .error "NameError: name dominant_risk_reason is not defined" := by
  rw [calculate_score]
  norm_num [calculate_f1_score, calculate_f2_score, calculate_f3_score,
    calculate_f5_score, maxSubScore, emptyDF, crashTrend, crashWeights]

/-- C6: the claim says every missing-or-malformed lexicon source is
recovered locally with four empty keyword sets.  A malformed source is
not: only FileNotFoundError is caught, so json.JSONDecodeError propagates
out of FeatureEngineer.__init__. -/
theorem claim_C6_counterexample :
    featureEngineerInit .malformed = .error "json.JSONDecodeError"
    ∧ featureEngineerInit .malformed ≠ .ok emptyLexicon := by
  constructor
  · rfl
  · intro h
    cases h

/-- C6 (amended): a missing lexicon file is recovered locally with empty
keyword sets (never surfaced), but a malformed file raises an uncaught
json.JSONDecodeError out of initialization. -/
theorem claim_C6_amended :
    featureEngineerInit .missing = .ok emptyLexicon
    ∧ featureEngineerInit .malformed = .error "json.JSONDecodeError" :=
  ⟨rfl, rfl⟩

/-- A complete raw review carrying all three required fields. -/
def rawComplete : RawReview := ⟨some 5, some "好吃", some "2024-01-01T00:00:00Z"⟩

/-- A raw review whose text field is absent. -/
def rawNoText : RawReview := ⟨some 5, none, some "2024-01-02T00:00:00Z"⟩

/-- C2: the claim says a batch with one review missing a required field is
rejected whole with a MissingFieldError naming the field.  It is not: when
another review carries the field the column exists, the malformed row is
silently dropped by dropna, and a partial result (the surviving row) is
returned with no error. -/
theorem claim_C2_counterexample :
    runNormalize [rawComplete, rawNoText] = some [⟨5, "好吃", "2024-01-01T00:00:00Z"⟩]
    ∧ analyzeNormalize [rawComplete, rawNoText] =
        .ok [⟨5, "好吃", "2024-01-01T00:00:00Z"⟩] := by
  constructor
  · decide
  · rw [analyzeNormalize]
    decide

/-- C2 (amended): the batch is rejected only when a required column is
absent from every review of a non-empty batch, and the rejection the caller
sees is a generic feature-engineering failure that names no field; a review
individually missing a field is dropped and the rest are processed. -/
theorem claim_C2_amended (rs : List RawReview) :
    (runNormalize rs = none ↔
      rs ≠ [] ∧ (hasStarsCol rs && hasTextCol rs && hasDateCol rs) = false)
    ∧ (runNormalize rs = none →
        analyzeNormalize rs = .error (500, "特徵工程執行失敗。")) := by
  constructor
  · rw [runNormalize]
    split
    · next hemp =>
      simp only [List.isEmpty_iff] at hemp
      simp [hemp]
    · next hemp =>
      simp only [List.isEmpty_iff] at hemp
      split
      · next hcols => simp [hemp, hcols]
      · next hcols => simp [hemp, Bool.not_eq_true _ ▸ hcols]
  · intro h
    rw [analyzeNormalize, h]

/-- C2 (amended) instantiated at a batch in which no review carries the
text field: the batch is rejected with the generic error. -/
theorem claim_C2_witness :
    (runNormalize [⟨some 5, none, some "2024-01-01T00:00:00Z"⟩] = none ↔
      [(⟨some 5, none, some "2024-01-01T00:00:00Z"⟩ : RawReview)] ≠ [] ∧
        (hasStarsCol [⟨some 5, none, some "2024-01-01T00:00:00Z"⟩] &&
         hasTextCol [⟨some 5, none, some "2024-01-01T00:00:00Z"⟩] &&
         hasDateCol [⟨some 5, none, some "2024-01-01T00:00:00Z"⟩]) = false)
    ∧ (runNormalize [⟨some 5, none, some "2024-01-01T00:00:00Z"⟩] = none →
        analyzeNormalize [⟨some 5, none, some "2024-01-01T00:00:00Z"⟩] =
          .error (500, "特徵工程執行失敗。")) :=
  claim_C2_amended [⟨some 5, none, some "2024-01-01T00:00:00Z"⟩]

/-- A small lexicon for the phrase-extraction counterexamples: one
high-risk keyword and one positive keyword. -/
def phraseLex : Lexicon := ⟨["髒"], [], [], ["好"], ["髒"]⟩

/-- A review that is a single sentence containing both the negative keyword
髒 and the positive keyword 好. -/
def mixedReview : String := "髒又好"

/-- A review whose first three sentences contain the negative keyword and
whose last sentence is the mixed sentence. -/
def quotaFillingReview : String := "很髒一，很髒二，很髒三，髒又好"

/-- C5: the claim says a sentence containing both a negative and a positive
keyword is never added to the positive list.  In the review whose first
three sentences already fill the per-review negative quota, the mixed
sentence 髒又好 (which contains the negative keyword 髒) is skipped by the
negative scan and lands in the positive list. -/
theorem claim_C5_counterexample :
    containsSub "髒又好" "髒" = true ∧ "髒" ∈ phraseLex.all_negative_set
    ∧ containsSub "髒又好" "好" = true ∧ "好" ∈ phraseLex.positive_set
    ∧ extract_key_phrases phraseLex quotaFillingReview =
        (["髒又好"], ["很髒一", "很髒二", "很髒三"]) := by
  decide

/-- C5 (amended): a sentence containing a negative keyword is claimed
negative and never tested for positive, provided the review's negative list
is still below the quota of 3 when the sentence is reached; once the quota
is full the sentence can be added to the positive list. -/
theorem claim_C5_amended (lex : Lexicon) (pos neg : List String) (s : String)
    (hq : neg.length < 3)
    (hneg : lex.all_negative_set.any (fun kw => containsSub (pyStrip s) kw) = true)
    (hne : pyStrip s ≠ "") :
    extractStep lex (pos, neg) s = (pos, neg ++ [pyStrip s]) := by
  rw [extractStep]
  simp [hne, hq, hneg]

/-- C5 (amended) instantiated: with an empty accumulator the mixed sentence
is claimed negative and the positive list stays empty. -/
theorem claim_C5_witness :
    extractStep phraseLex ([], []) "髒又好" = ([], [pyStrip "髒又好"]) :=
  claim_C5_amended phraseLex [] [] "髒又好" (by decide) (by decide) (by decide)

/-- C4: the claim says no sentence appears in both merged lists.  With the
two reviews below, the mixed sentence 髒又好 is claimed negative in the
first review and — the second review having filled its own negative quota
first — classified positive in the second, so after the merge it appears
in both lists. -/
theorem claim_C4_counterexample :
    "髒又好" ∈ (runKeyPhrases phraseLex [mixedReview, quotaFillingReview]).positive_points
    ∧ "髒又好" ∈ (runKeyPhrases phraseLex [mixedReview, quotaFillingReview]).key_negative_keywords := by
  decide

/-- C4 (amended): the quota bounds hold for every input — at most 3 merged
negative phrases and at most 2 merged positive phrases — but a sentence can
appear in both lists. -/
theorem claim_C4_amended (lex : Lexicon) (texts : List String) :
    (runKeyPhrases lex texts).key_negative_keywords.length ≤ 3
    ∧ (runKeyPhrases lex texts).positive_points.length ≤ 2 := by
  constructor
  · exact List.length_take_le 3 _
  · exact List.length_take_le 2 _

/-- C4 (amended) instantiated at the two counterexample reviews. -/
theorem claim_C4_witness :
    (runKeyPhrases phraseLex [mixedReview, quotaFillingReview]).key_negative_keywords.length ≤ 3
    ∧ (runKeyPhrases phraseLex [mixedReview, quotaFillingReview]).positive_points.length ≤ 2 :=
  claim_C4_amended phraseLex [mixedReview, quotaFillingReview]

/-- The sentiment-attachment step of FeatureEngineer.run (services.py line
184): `df['sentiment_score'] = df['text'].apply(get_sentiment_score)`,
which creates the sentiment column. -/
def attachSentiment (client : Option (String → Except String AzureResponse))
    (rows : List ProcessedRow) : ProcessedDF :=
  ⟨rows.map (fun r => { r with sentiment_score := get_sentiment_score client r.text }), true⟩

/-- When every row's sentiment score is 0 and the column exists, the F5
sub-score is exactly 50. -/
theorem f5_all_zero (df : ProcessedDF) (h1 : df.rows ≠ [])
    (h2 : df.hasSentimentCol = true)
    (h3 : ∀ r ∈ df.rows, r.sentiment_score = 0) :
    calculate_f5_score df = 50 := by
  have hsum : (df.rows.map ProcessedRow.sentiment_score).sum = 0 := by
    apply List.sum_eq_zero
    intro x hx
    obtain ⟨r, hr, rfl⟩ := List.mem_map.1 hx
    exact h3 r hr
  rw [calculate_f5_score, avgSentiment, hsum, zero_div]
  simp [h2, List.isEmpty_iff, h1]
  norm_num

/-- C7: the claim says a wholly disabled sentiment collaborator yields
F5 = 0.  It does not: an uninitialized client returns the neutral score 0
per review, the sentiment column therefore exists filled with zeros, and
F5 evaluates to 50. -/
theorem claim_C7_counterexample :
    get_sentiment_score none "好吃" = 0
    ∧ calculate_f5_score (attachSentiment none [⟨5, "好吃", 0, 0, 0, 1⟩]) = 50
    ∧ (50 : ℚ) ≠ 0 := by
  refine ⟨rfl, ?_, by norm_num⟩
  norm_num [calculate_f5_score, avgSentiment, attachSentiment, get_sentiment_score]

/-- C7 (amended): F5 equals clamp(0, 100, (1 - avg_sentiment) * 50), and is
0 when there are no rows or the sentiment column is missing; but a wholly
disabled collaborator produces a column of neutral zeros, giving F5 = 50
on a non-empty review set rather than 0. -/
theorem claim_C7_amended (df : ProcessedDF) (rows : List ProcessedRow) (b : Bool)
    (h1 : df.rows ≠ []) (h2 : df.hasSentimentCol = true) (h3 : rows ≠ []) :
    calculate_f5_score df = max 0 (min ((1 - avgSentiment df) * 50) 100)
    ∧ calculate_f5_score ⟨[], b⟩ = 0
    ∧ calculate_f5_score ⟨rows, false⟩ = 0
    ∧ calculate_f5_score (attachSentiment none rows) = 50 := by
  refine ⟨?_, by simp [calculate_f5_score], by simp [calculate_f5_score], ?_⟩
  · rw [calculate_f5_score]
    simp [h2, List.isEmpty_iff, h1]
  · apply f5_all_zero
    · simp [attachSentiment, h3]
    · rfl
    · intro r hr
      obtain ⟨r0, _, rfl⟩ := List.mem_map.1 hr
      rfl

/-- C7 (amended) instantiated at a one-review table. -/
theorem claim_C7_witness :
    calculate_f5_score ⟨[scenarioARow], true⟩ =
      max 0 (min ((1 - avgSentiment ⟨[scenarioARow], true⟩) * 50) 100)
    ∧ calculate_f5_score ⟨[], true⟩ = 0
    ∧ calculate_f5_score ⟨[scenarioARow], false⟩ = 0
    ∧ calculate_f5_score (attachSentiment none [scenarioARow]) = 50 :=
  claim_C7_amended ⟨[scenarioARow], true⟩ [scenarioARow] true
    (by simp) rfl (by simp)

/-- C10: for a non-empty review set whose sentiment scores are all 0 — as
when the Azure client is uninitialized and every call returns the neutral
default 0 — F5 equals exactly 50, and it contributes 50 * 0.15 = 7.5 points
under the default weight. -/
theorem claim_C10_neutral_sentiment (df : ProcessedDF) (t : String)
    (h1 : df.rows ≠ []) (h2 : df.hasSentimentCol = true)
    (h3 : ∀ r ∈ df.rows, r.sentiment_score = 0) :
    calculate_f5_score df = 50
    ∧ get_sentiment_score none t = 0
    ∧ calculate_f5_score df * defaultWeights.f5_sentiment = 7.5 := by
  have h50 := f5_all_zero df h1 h2 h3
  refine ⟨h50, rfl, ?_⟩
  rw [h50]
  norm_num [defaultWeights]

/-- C10 instantiated at a one-review table with neutral sentiment. -/
theorem claim_C10_witness :
    calculate_f5_score ⟨[scenarioARow], true⟩ = 50
    ∧ get_sentiment_score none "好吃" = 0
    ∧ calculate_f5_score ⟨[scenarioARow], true⟩ * defaultWeights.f5_sentiment = 7.5 :=
  claim_C10_neutral_sentiment ⟨[scenarioARow], true⟩ "好吃"
    (by simp) rfl (by simp [scenarioARow])

/-- Membership in the first-occurrence deduplication: an element is kept
exactly when it occurs in the list and was not already seen. -/
theorem mem_dedupFirstAux (l : List String) (seen : List String) (x : String) :
    x ∈ dedupFirstAux seen l ↔ x ∈ l ∧ x ∉ seen := by
  induction l generalizing seen with
  | nil => simp [dedupFirstAux]
  | cons y ys ih =>
    rw [dedupFirstAux]
    by_cases hy : y ∈ seen
    · rw [if_pos hy, ih]
      simp only [List.mem_cons]
      constructor
      · exact fun ⟨ha, hb⟩ => ⟨Or.inr ha, hb⟩
      · rintro ⟨ha | ha, hb⟩
        · exact absurd (ha ▸ hy) hb
        · exact ⟨ha, hb⟩
    · rw [if_neg hy]
      simp only [List.mem_cons, ih, List.mem_cons]
      constructor
      · rintro (rfl | ⟨ha, hb⟩)
        · exact ⟨Or.inl rfl, hy⟩
        · exact ⟨Or.inr ha, fun hs => hb (Or.inr hs)⟩
      · rintro ⟨ha | ha, hb⟩
        · exact Or.inl ha
        · by_cases hxy : x = y
          · exact Or.inl hxy
          · exact Or.inr ⟨ha, fun hs => hs.elim hxy hb⟩
  

/-- C8: per review each tier count is the size of the intersection of the
review's distinct token set with the tier set — so a keyword token repeated
in one review counts once: the counts depend only on token membership.
F2 is risk_sum / total_reviews * 100 capped at 100 over the non-empty
table, and 0 when there are no reviews. -/
theorem claim_C8_keyword_scoring (lex : Lexicon) (tok1 tok2 : String → List String)
    (text : String) (df : ProcessedDF) (b : Bool)
    (hmem : ∀ w, w ∈ tok1 text ↔ w ∈ tok2 text) :
    calculate_f2_keywords_jieba lex tok1 text =
      { high_risk_keyword_count := interCount lex.high_risk_set (dedupKeepFirst (tok1 text))
        medium_risk_keyword_count := interCount lex.medium_risk_set (dedupKeepFirst (tok1 text))
        low_risk_keyword_count := interCount lex.low_risk_set (dedupKeepFirst (tok1 text)) }
    ∧ calculate_f2_keywords_jieba lex tok1 text = calculate_f2_keywords_jieba lex tok2 text
    ∧ (df.rows ≠ [] →
        calculate_f2_score df = min (riskSum df / (df.rows.length : ℚ) * 100) 100)
    ∧ calculate_f2_score ⟨[], b⟩ = 0 := by
  have hcount : ∀ a : List String,
      interCount a (dedupKeepFirst (tok1 text)) = interCount a (dedupKeepFirst (tok2 text)) := by
    intro a
    rw [interCount, interCount]
    apply congrArg List.length
    apply List.filter_congr
    intro x _
    simp only [decide_eq_decide, dedupKeepFirst, mem_dedupFirstAux]
    simp [hmem x]
  refine ⟨rfl, ?_, ?_, by simp [calculate_f2_score]⟩
  · rw [calculate_f2_keywords_jieba, calculate_f2_keywords_jieba]
    simp only [KeywordCounts.mk.injEq]
    exact ⟨hcount _, hcount _, hcount _⟩
  · intro h
    rw [calculate_f2_score, if_neg (by simp [List.isEmpty_iff, h])]

/-- C8 instantiated: a tokenizer that repeats the keyword 髒 five times
gives the same counts as one that yields it once, and the F2 formula holds
at a one-review table. -/
theorem claim_C8_witness :
    calculate_f2_keywords_jieba phraseLex (fun _ => ["髒", "髒", "髒", "髒", "髒"]) "x" =
      { high_risk_keyword_count :=
          interCount phraseLex.high_risk_set (dedupKeepFirst ["髒", "髒", "髒", "髒", "髒"])
        medium_risk_keyword_count :=
          interCount phraseLex.medium_risk_set (dedupKeepFirst ["髒", "髒", "髒", "髒", "髒"])
        low_risk_keyword_count :=
          interCount phraseLex.low_risk_set (dedupKeepFirst ["髒", "髒", "髒", "髒", "髒"]) }
    ∧ calculate_f2_keywords_jieba phraseLex (fun _ => ["髒", "髒", "髒", "髒", "髒"]) "x" =
        calculate_f2_keywords_jieba phraseLex (fun _ => ["髒"]) "x"
    ∧ (ProcessedDF.rows ⟨[scenarioARow], true⟩ ≠ [] →
        calculate_f2_score ⟨[scenarioARow], true⟩ =
          min (riskSum ⟨[scenarioARow], true⟩ /
            ((ProcessedDF.rows ⟨[scenarioARow], true⟩).length : ℚ) * 100) 100)
    ∧ calculate_f2_score ⟨[], true⟩ = 0 :=
  claim_C8_keyword_scoring phraseLex (fun _ => ["髒", "髒", "髒", "髒", "髒"]) (fun _ => ["髒"])
    "x" ⟨[scenarioARow], true⟩ true (by intro w; simp)

/-- Any value of the clamp max 0 (min q 100) lies in the interval [0, 100]. -/
theorem clamp_bounds (q : ℚ) : 0 ≤ max 0 (min q 100) ∧ max 0 (min q 100) ≤ 100 :=
  ⟨le_max_left 0 _, max_le (by norm_num) (min_le_right q 100)⟩

/-- C9: whenever calculate_score returns a result (it can also raise, see
the C1 analysis), the returned final_score lies in [0, 100], for every
weight configuration carrying the four keys and every input: the weighted
sum is clamped before the return. -/
theorem claim_C9_final_score_in_range (w : Weights) (df : ProcessedDF)
    (t : TrendInfo) (s : ℚ) (m : String)
    (h : calculate_score w df t = .ok (s, m)) :
    0 ≤ s ∧ s ≤ 100 := by
  have hb := clamp_bounds
    (calculate_f1_score t.reviews_distribution t.total_reviews * w.f1_neg_reviews +
      calculate_f2_score df * w.f2_keywords +
      calculate_f3_score t.trend_score * w.f3_trend +
      calculate_f5_score df * w.f5_sentiment)
  rw [calculate_score] at h
  split at h
  · split at h
    · cases h
      exact hb
    · cases h
  · cases h
    exact hb

/-- A neutral trend_info with no declared reviews. -/
def neutralTrend : TrendInfo := ⟨0, 0, ⟨0, 0⟩⟩

/-- On the empty table with neutral trend the scorer returns score 0 and
the low-risk summary. -/
theorem score_empty_eval :
    calculate_score defaultWeights emptyDF neutralTrend =
      .ok (0, "數據顯示此地點的負面指標較少，整體風險低。") := by
  rw [calculate_score]
  norm_num [calculate_f1_score, calculate_f2_score, calculate_f3_score,
    calculate_f5_score, maxSubScore, emptyDF, neutralTrend, defaultWeights]

/-- C9 instantiated at the empty table, where the returned score is 0. -/
theorem claim_C9_witness : 0 ≤ (0 : ℚ) ∧ (0 : ℚ) ≤ 100 :=
  claim_C9_final_score_in_range defaultWeights emptyDF neutralTrend 0
    "數據顯示此地點的負面指標較少，整體風險低。" score_empty_eval
